import Mathlib

/-!
# Verification of the WinfraaEnquiryApp client logic

Shallow embedding of the client-side logic of the WinfraaEnquiryApp CRM:
the enquiry filter/search pipeline (`EnquiryListScreen`), the export
pipeline (`ExportUtils` / `SupabaseService.getEnquiriesForExport`), the
AI content validation (`AIEmailService.validateResponse`), the reminder
notification scheduler (`NotificationService`) and the single-record
lookup error handling of `SupabaseService`.

Database rows are modelled after the SQL schema in `SETUP_GUIDE.md`
(nullable columns become `Option`); the hosted backend's query, update
and error surface is modelled where needed, following the service code
that drives it.
-/

namespace Winfraa

/-- Six-value enquiry status enumeration (`CHECK (status IN ...)` in the
schema and the `EnquiryStatus` union type). -/
inductive EnquiryStatus where
  | new
  | in_progress
  | quoted
  | won
  | lost
  | on_hold
deriving DecidableEq, Repr

/-- The database string for a status value. -/
def EnquiryStatus.dbString : EnquiryStatus → String
  | .new => "new"
  | .in_progress => "in_progress"
  | .quoted => "quoted"
  | .won => "won"
  | .lost => "lost"
  | .on_hold => "on_hold"

/-- `companies` table row (columns per `SETUP_GUIDE.md`). -/
structure Company where
  id : String
  name : String
  industry : String
  address : Option String
  website : Option String
  notes : Option String
  owner : String
deriving DecidableEq, Repr

/-- `contacts` table row (columns per `SETUP_GUIDE.md`). -/
structure Contact where
  id : String
  company_id : String
  name : String
  designation : String
  phone : Option String
  email : Option String
  is_primary : Bool
  notes : Option String
deriving DecidableEq, Repr

/-- `enquiries` table row (columns per `SETUP_GUIDE.md`). Dates are kept
as ISO strings, which order chronologically by lexicographic order; the
estimated monetary value is kept as an integer (its decimal part plays
no role in the verified logic). -/
structure Enquiry where
  id : String
  company_id : String
  contact_id : Option String
  enquiry_date : String
  status : EnquiryStatus
  product_interest : String
  estimated_value : Option Int
  notes : Option String
  next_follow_up : Option String
  owner : String
deriving DecidableEq, Repr

/-- An enquiry row together with its joined `company:companies(*)` and
`contact:contacts(*)` relations, as returned by
`SupabaseService.getEnquiries` (`EnquiryWithRelations`). Either relation
can be absent (deleted parent or mid-fetch). -/
structure EnquiryWithRelations extends Enquiry where
  company : Option Company
  contact : Option Contact
deriving DecidableEq, Repr

/-- `reminders` table row; the due timestamp is epoch milliseconds. -/
structure Reminder where
  id : String
  enquiry_id : String
  reminder_date : Nat
  title : String
  description : Option String
  is_completed : Bool
deriving DecidableEq, Repr

/-- JavaScript `String.prototype.includes`: substring containment. -/
def jsIncludes (s pat : String) : Bool :=
  decide (pat.data <:+: s.data)

/-- JavaScript `String.prototype.toLowerCase`: lowercase the string
character by character. -/
def jsToLower (s : String) : String :=
  ⟨s.data.map Char.toLower⟩

/-- JavaScript whitespace as far as `String.prototype.trim` is concerned
(restricted to the characters that occur in this code base). -/
def isJsWhitespace (c : Char) : Bool :=
  c == ' ' || c == '\t' || c == '\n' || c == '\r'

/-- JavaScript `String.prototype.trim`: strip whitespace from both
ends. -/
def jsTrim (s : String) : String :=
  ⟨((s.data.dropWhile isJsWhitespace).reverse.dropWhile isJsWhitespace).reverse⟩

/-- `applySearch` from `EnquiryListScreen`: an empty term (falsy in JS)
returns the data unmodified; otherwise keep the rows whose company
name, contact name or product interest contains the lowercased term,
with missing relations contributing `''` (`?.` chains plus `|| ''`). -/
def applySearch (data : List EnquiryWithRelations) (term : String) :
    List EnquiryWithRelations :=
  if term = "" then data
  else
    let lowerTerm := jsToLower term
    data.filter fun enquiry =>
      let company := ((enquiry.company.map fun c => jsToLower c.name).getD "")
      let contact := ((enquiry.contact.map fun c => jsToLower c.name).getD "")
      let product := jsToLower enquiry.product_interest
      jsIncludes company lowerTerm || jsIncludes contact lowerTerm ||
        jsIncludes product lowerTerm

/-- `EnquiryFilterOptions`: the optional server-side filter fields used
by `SupabaseService.getEnquiries`. -/
structure EnquiryFilterOptions where
  status : Option (List EnquiryStatus)
  owner : Option String
  dateFrom : Option String
  dateTo : Option String
  productInterest : Option String
  companyId : Option String

/-- The conjunctive WHERE-clause built by `SupabaseService.getEnquiries`
from the filter options: each field is guarded by a JS truthiness check
(`undefined` and `''` impose no constraint; the status list only applies
when non-empty), then contributes `in` / `eq` / `gte` / `lte` / `ilike`
respectively. -/
def matchesFilters (filters : Option EnquiryFilterOptions) (e : Enquiry) : Bool :=
  match filters with
  | none => true
  | some f =>
    (match f.status with
     | some l => l.isEmpty || l.contains e.status
     | none => true) &&
    (match f.owner with
     | some o => o == "" || e.owner == o
     | none => true) &&
    (match f.dateFrom with
     | some d => d == "" || decide (d ≤ e.enquiry_date)
     | none => true) &&
    (match f.dateTo with
     | some d => d == "" || decide (e.enquiry_date ≤ d)
     | none => true) &&
    (match f.productInterest with
     | some p => p == "" || jsIncludes (jsToLower e.product_interest) (jsToLower p)
     | none => true) &&
    (match f.companyId with
     | some c => c == "" || e.company_id == c
     | none => true)

/-- The backend data visible to the client: the three tables the
verified queries read. -/
structure Database where
  companies : List Company
  contacts : List Contact
  enquiries : List Enquiry

/-- Single-row lookup of a company by primary key (backend `eq('id', ...)`). -/
def companyById (db : Database) (id : String) : Option Company :=
  db.companies.find? fun c => c.id == id

/-- Single-row lookup of a contact by primary key (backend `eq('id', ...)`). -/
def contactById (db : Database) (id : String) : Option Contact :=
  db.contacts.find? fun c => c.id == id

/-- The `order('enquiry_date', { ascending: false })` sort key. -/
def enquiryDateDesc (a b : Enquiry) : Bool :=
  decide (b.enquiry_date ≤ a.enquiry_date)

/-- The `company:companies(*), contact:contacts(*)` join performed by
the select in `SupabaseService.getEnquiries`. -/
def joinRelations (db : Database) (e : Enquiry) : EnquiryWithRelations :=
  { toEnquiry := e
    company := companyById db e.company_id
    contact := e.contact_id.bind fun cid => contactById db cid }

/-- `SupabaseService.getEnquiries`: apply the filters, order by enquiry
date descending, slice `range(offset, offset + limit - 1)` (an inclusive
range of `limit` rows), and join the relations. -/
def getEnquiries (db : Database) (filters : Option EnquiryFilterOptions)
    (limit offset : Nat) : List EnquiryWithRelations :=
  ((((db.enquiries.filter (matchesFilters filters)).mergeSort
        enquiryDateDesc).drop offset).take limit).map (joinRelations db)

/-- `ExportEnquiryData`: the flattened export row built per enquiry by
`SupabaseService.getEnquiriesForExport`; the contact fields are absent
when the enquiry has no contact. -/
structure ExportEnquiryData where
  company_name : String
  contact_name : Option String
  contact_email : Option String
  contact_phone : Option String
  status : EnquiryStatus
  product_interest : String
  estimated_value : Option Int
  enquiry_date : String
  next_follow_up : Option String
  notes : Option String
  owner : String
deriving DecidableEq, Repr

/-- The per-enquiry projection inside `getEnquiriesForExport`: look up
company and contact, default the company name to `''`, pass the contact
fields through `?.` chains and the enquiry columns through unchanged. -/
def toExportRow (db : Database) (enquiry : Enquiry) : ExportEnquiryData :=
  let company := companyById db enquiry.company_id
  let contact := enquiry.contact_id.bind fun cid => contactById db cid
  { company_name := (company.map fun c => c.name).getD ""
    contact_name := contact.map fun c => c.name
    contact_email := contact.bind fun c => c.email
    contact_phone := contact.bind fun c => c.phone
    status := enquiry.status
    product_interest := enquiry.product_interest
    estimated_value := enquiry.estimated_value
    enquiry_date := enquiry.enquiry_date
    next_follow_up := enquiry.next_follow_up
    notes := enquiry.notes
    owner := enquiry.owner }

/-- `SupabaseService.getEnquiriesForExport`: fetch via
`getEnquiries(filters, 1000, 0)` and project each fetched enquiry to an
export row. -/
def getEnquiriesForExport (db : Database)
    (filters : Option EnquiryFilterOptions) : List ExportEnquiryData :=
  (getEnquiries db filters 1000 0).map fun e => toExportRow db e.toEnquiry

/-- The header row `Papa.unparse` derives from the keys of the
`ExportEnquiryData` objects, in declaration order. -/
def papaHeader : List String :=
  ["company_name", "contact_name", "contact_email", "contact_phone",
   "status", "product_interest", "estimated_value", "enquiry_date",
   "next_follow_up", "notes", "owner"]

/-- The cells of one CSV record as serialized by `Papa.unparse`,
modelled from the PapaParse library's documented behavior: one field per
object key in order, with `null`/`undefined` values serialized as the
empty string. -/
def papaCells (row : ExportEnquiryData) : List String :=
  [row.company_name,
   row.contact_name.getD "",
   row.contact_email.getD "",
   row.contact_phone.getD "",
   row.status.dbString,
   row.product_interest,
   (row.estimated_value.map fun v => toString v).getD "",
   row.enquiry_date,
   row.next_follow_up.getD "",
   row.notes.getD "",
   row.owner]

/-- `Papa.unparse` of a row list: header row followed by one record per
row (modelled at the level of cell lists, before delimiter joining). -/
def papaUnparse (data : List ExportEnquiryData) : List (List String) :=
  papaHeader :: data.map papaCells

/-- `ExportUtils.exportToCSV`: the written artifact's rows are
`Papa.unparse(data)` of the rows exactly as passed in. -/
def exportToCSVRows (data : List ExportEnquiryData) : List (List String) :=
  papaUnparse data

/-- `ExportUtils.exportEnquiries` with `format = 'csv'` routes the data
unchanged to `exportToCSV`; this is how `EnquiryListScreen.handleExport`
produces the CSV artifact. -/
def exportEnquiriesCSV (data : List ExportEnquiryData) : List (List String) :=
  exportToCSVRows data

/-- JS `value || '-'` over an optional string: `undefined` and `''` are
falsy and yield the dash. -/
def jsOrDash (v : Option String) : String :=
  match v with
  | none => "-"
  | some s => if s = "" then "-" else s

/-- `ExportUtils.formatForExport`: the dash-placeholder formatting of
one row list (cells listed in the source's key order; `0` is falsy in
JS, so a zero estimated value also renders as the dash). This helper is
never invoked by the export flow. -/
def formatForExport (data : List ExportEnquiryData) : List (List String) :=
  data.map fun item =>
    [item.company_name,
     jsOrDash item.contact_name,
     jsOrDash item.contact_email,
     jsOrDash item.contact_phone,
     item.status.dbString,
     item.product_interest,
     (match item.estimated_value with
      | some v => if v = 0 then "-" else "$" ++ toString v
      | none => "-"),
     item.enquiry_date,
     jsOrDash item.next_follow_up,
     jsOrDash item.notes,
     item.owner]

/-- Line terminators excluded by `.` in a JavaScript regular expression. -/
def isLineTerminator (c : Char) : Bool :=
  c == '\n' || c == '\r' || c == '\u2028' || c == '\u2029'

/-- `regex.test` for `/op.*?cl/` with single-character delimiters (the
`/\[.*?\]/` and `/\{.*?\}/` patterns of `validateResponse`): true iff an
`op` is followed by a `cl` with no line terminator in between.
`seenOpen` records whether an unanswered `op` has occurred since the
last line terminator. -/
def hasDelimitedPair (op cl : Char) (seenOpen : Bool) : List Char → Bool
  | [] => false
  | c :: rest =>
    if seenOpen && c == cl then true
    else if isLineTerminator c then hasDelimitedPair op cl false rest
    else if c == op then hasDelimitedPair op cl true rest
    else hasDelimitedPair op cl seenOpen rest

/-- `regex.test` for the `/{{.*?}}/` pattern of `validateResponse`:
true iff a `{{` is followed by a `}}` with no line terminator in
between; `prev` is the previously read character. -/
def hasDoubleBracePair (seenOpen : Bool) (prev : Option Char) : List Char → Bool
  | [] => false
  | c :: rest =>
    if seenOpen && prev == some '}' && c == '}' then true
    else if isLineTerminator c then hasDoubleBracePair false (some c) rest
    else if prev == some '{' && c == '{' then hasDoubleBracePair true (some c) rest
    else hasDoubleBracePair seenOpen (some c) rest

/-- The placeholder scan of `AIEmailService.validateResponse`: any of
the three patterns `/\[.*?\]/`, `/\{.*?\}/`, `/{{.*?}}/` testing true
(each regex object is freshly created per call, so the `g` flag carries
no state between calls). -/
def containsUnresolvedPlaceholder (content : String) : Bool :=
  hasDelimitedPair '[' ']' false content.data ||
  hasDelimitedPair '{' '}' false content.data ||
  hasDoubleBracePair false none content.data

/-- The `{ isValid, message }` result of `validateResponse`. -/
structure ValidationResult where
  isValid : Bool
  message : String
deriving DecidableEq, Repr

/-- `AIEmailService.validateResponse`: reject empty content (JS
`!content` plus zero trimmed length), trimmed length under 50,
untrimmed length over 5000, or unresolved placeholder syntax; otherwise
pass. -/
def validateResponse (content : String) : ValidationResult :=
  if content == "" || (jsTrim content).length == 0 then
    ⟨false, "Generated content is empty"⟩
  else if (jsTrim content).length < 50 then
    ⟨false, "Generated content is too short"⟩
  else if content.length > 5000 then
    ⟨false, "Generated content is too long"⟩
  else if containsUnresolvedPlaceholder content then
    ⟨false, "Generated content contains unresolved placeholders"⟩
  else
    ⟨true, "Content validation passed"⟩

/-- A backend error object as observed by the services (`error.code`). -/
structure PostgrestError where
  code : String
  message : String
deriving DecidableEq, Repr

/-- The `{ data, error }` shape of a backend `.single()` response. -/
structure SingleResponse (α : Type) where
  data : Option α
  error : Option PostgrestError

/-- `SupabaseService.getCompanyById` on a backend response:
`if (error && error.code !== 'PGRST116') throw error; return data || null`. -/
def getCompanyById (resp : SingleResponse Company) :
    Except PostgrestError (Option Company) :=
  match resp.error with
  | some e => if e.code ≠ "PGRST116" then Except.error e else Except.ok resp.data
  | none => Except.ok resp.data

/-- `SupabaseService.getContactById`: same error handling as
`getCompanyById`. -/
def getContactById (resp : SingleResponse Contact) :
    Except PostgrestError (Option Contact) :=
  match resp.error with
  | some e => if e.code ≠ "PGRST116" then Except.error e else Except.ok resp.data
  | none => Except.ok resp.data

/-- `SupabaseService.getEnquiryById` (select with joined relations):
same error handling as `getCompanyById`. -/
def getEnquiryById (resp : SingleResponse EnquiryWithRelations) :
    Except PostgrestError (Option EnquiryWithRelations) :=
  match resp.error with
  | some e => if e.code ≠ "PGRST116" then Except.error e else Except.ok resp.data
  | none => Except.ok resp.data

/-- `Partial<Enquiry>`: the update payload of
`SupabaseService.updateEnquiry`; a `some` field is a column being
written (for a nullable column, possibly written to null). -/
structure EnquiryUpdate where
  company_id : Option String
  contact_id : Option (Option String)
  enquiry_date : Option String
  status : Option EnquiryStatus
  product_interest : Option String
  estimated_value : Option (Option Int)
  notes : Option (Option String)
  next_follow_up : Option (Option String)
  owner : Option String

/-- Modelled from the spec: the backend's table-scoped `update` keyed by
record identifier (§6) — it writes exactly the columns present in the
payload to the matched row and leaves every other column unchanged. The
backend engine itself is an external collaborator, not code of this
repository. -/
def applyUpdate (row : Enquiry) (u : EnquiryUpdate) : Enquiry :=
  { id := row.id
    company_id := u.company_id.getD row.company_id
    contact_id := u.contact_id.getD row.contact_id
    enquiry_date := u.enquiry_date.getD row.enquiry_date
    status := u.status.getD row.status
    product_interest := u.product_interest.getD row.product_interest
    estimated_value := u.estimated_value.getD row.estimated_value
    notes := u.notes.getD row.notes
    next_follow_up := u.next_follow_up.getD row.next_follow_up
    owner := u.owner.getD row.owner }

/-- `SupabaseService.updateEnquiry` as seen on the enquiries table:
`.update(updates).eq('id', id)` applies the payload to the rows whose
id matches and touches no other row. -/
def updateEnquiry (rows : List Enquiry) (id : String) (u : EnquiryUpdate) :
    List Enquiry :=
  rows.map fun r => if r.id = id then applyUpdate r u else r

/-- The payload `{ status: newStatus }` sent by
`EnquiryDetailScreen.handleStatusChange`. -/
def statusChangeUpdate (newStatus : EnquiryStatus) : EnquiryUpdate :=
  { company_id := none
    contact_id := none
    enquiry_date := none
    status := some newStatus
    product_interest := none
    estimated_value := none
    notes := none
    next_follow_up := none
    owner := none }

/-- `handleStatusChange` on the enquiries table: persist the status
change through `updateEnquiry`. -/
def handleStatusChange (rows : List Enquiry) (enquiryId : String)
    (newStatus : EnquiryStatus) : List Enquiry :=
  updateEnquiry rows enquiryId (statusChangeUpdate newStatus)

/-- The notification content assembled by the scheduler (`title`,
`body` and the `data` payload fields it sets). -/
structure NotificationPayload where
  title : String
  body : String
  reminder_id : Option String
  enquiry_id : Option String
  screen : Option String
deriving DecidableEq, Repr

/-- An invocation of the underlying platform notification API
(`expo-notifications`). -/
inductive PlatformCall where
  | scheduleCall (payload : NotificationPayload) (trigger : Nat)
  | cancelCall (notificationId : String)
  | cancelAllCall
deriving DecidableEq, Repr

/-- The scheduler's in-memory state: the JS `Map` from reminder id to
platform notification id, modelled extensionally as a partial function
(no verified operation observes the map's iteration order). -/
structure NotificationState where
  scheduledNotifications : String → Option String

/-- JS `Map.prototype.get`. -/
def mapGet (m : String → Option String) (k : String) : Option String :=
  m k

/-- JS `Map.prototype.set`. -/
def mapSet (m : String → Option String) (k v : String) :
    String → Option String :=
  fun x => if x = k then some v else m x

/-- JS `Map.prototype.delete`. -/
def mapDelete (m : String → Option String) (k : String) :
    String → Option String :=
  fun x => if x = k then none else m x

/-- JS `Map.prototype.clear`: the empty mapping. -/
def emptyMap : String → Option String :=
  fun _ => none

/-- `NotificationService.scheduleNotification`: invoke the platform
scheduling API; `platformResult` is the platform's outcome (`some id`,
or `none` when the call throws, which the method catches and turns into
`null`). The call is recorded either way. -/
def scheduleNotification (payload : NotificationPayload) (triggerDate : Nat)
    (platformResult : Option String) : Option String × List PlatformCall :=
  (platformResult, [PlatformCall.scheduleCall payload triggerDate])

/-- `NotificationService.scheduleReminderNotification` at current time
`now` (epoch milliseconds): skip silently when the due time is not in
the future; otherwise schedule and, on a non-null notification id,
record the mapping entry. -/
def scheduleReminderNotification (now : Nat) (reminder : Reminder)
    (platformResult : Option String) (s : NotificationState) :
    NotificationState × List PlatformCall :=
  if reminder.reminder_date ≤ now then (s, [])
  else
    let payload : NotificationPayload :=
      { title := "Follow-up Reminder"
        body := reminder.title
        reminder_id := some reminder.id
        enquiry_id := some reminder.enquiry_id
        screen := some "EnquiryDetail" }
    let result := scheduleNotification payload reminder.reminder_date platformResult
    match result.1 with
    | some notificationId =>
      (⟨mapSet s.scheduledNotifications reminder.id notificationId⟩, result.2)
    | none => (s, result.2)

/-- `NotificationService.cancelNotification`: one platform cancel call
(errors are caught and swallowed). -/
def cancelNotification (notificationId : String) : List PlatformCall :=
  [PlatformCall.cancelCall notificationId]

/-- `NotificationService.cancelReminderNotification`: when a mapping
entry exists, cancel the underlying notification and delete the entry;
otherwise do nothing. -/
def cancelReminderNotification (reminderId : String) (s : NotificationState) :
    NotificationState × List PlatformCall :=
  match mapGet s.scheduledNotifications reminderId with
  | some notificationId =>
    (⟨mapDelete s.scheduledNotifications reminderId⟩,
      cancelNotification notificationId)
  | none => (s, [])

/-- `NotificationService.cancelAllNotifications`: one platform
cancel-all call, then clear the mapping; if the platform call throws
(`platformOk = false`) the clear is skipped and the error swallowed. -/
def cancelAllNotifications (platformOk : Bool) (s : NotificationState) :
    NotificationState × List PlatformCall :=
  if platformOk then (⟨emptyMap⟩, [PlatformCall.cancelAllCall])
  else (s, [PlatformCall.cancelAllCall])

/-- The re-scheduling loop of `syncReminders`: schedule each fetched
reminder that is not completed, consuming one platform outcome per
attempt; a failed schedule does not abort the loop. -/
def syncScheduleLoop (now : Nat) :
    List Reminder → List (Option String) → NotificationState →
    NotificationState × List PlatformCall
  | [], _, s => (s, [])
  | r :: rest, results, s =>
    if r.is_completed then syncScheduleLoop now rest results s
    else
      let step := scheduleReminderNotification now r (results.headD none) s
      let next := syncScheduleLoop now rest results.tail step.1
      (next.1, step.2 ++ next.2)

/-- `NotificationService.syncReminders` with the fetched set of
upcoming incomplete reminders given as `upcoming`: cancel all existing
notifications unconditionally, then re-schedule each fetched
reminder. -/
def syncReminders (now : Nat) (upcoming : List Reminder)
    (results : List (Option String)) (cancelAllOk : Bool)
    (s : NotificationState) : NotificationState × List PlatformCall :=
  let cancelStep := cancelAllNotifications cancelAllOk s
  let scheduleStep := syncScheduleLoop now upcoming results cancelStep.1
  (scheduleStep.1, cancelStep.2 ++ scheduleStep.2)

/-- Number of single-notification platform cancel calls in a trace. -/
def countCancelCalls (calls : List PlatformCall) : Nat :=
  calls.countP fun c =>
    match c with
    | PlatformCall.cancelCall _ => true
    | _ => false

/-- A company row used to exercise the export pipeline. -/
def acmeCompany : Company :=
  ⟨"c1", "Acme Industries", "Manufacturing", none, none, none, "sam"⟩

/-- An enquiry with no contact and every nullable column null: each of
its optional export fields is missing. -/
def bareEnquiry : Enquiry :=
  ⟨"q1", "c1", none, "2024-01-15", .new, "Pumps", none, none, none, "sam"⟩

/-- A one-company, one-enquiry database exercising the export
pipeline. -/
def exportSampleDb : Database :=
  ⟨[acmeCompany], [], [bareEnquiry]⟩

/-- A contact row used to exercise the client-side search. -/
def bobContact : Contact :=
  ⟨"ct1", "c1", "Bob Stone", "Manager", none, none, false, none⟩

/-- A search record whose company relation is missing (null) but whose
contact relation is present. -/
def orphanRecord : EnquiryWithRelations :=
  ⟨⟨"q2", "c9", none, "2024-02-01", .new, "Widgets", none, none, none, "sam"⟩,
    none, some bobContact⟩

/-- A well-formed 200-character paragraph with no bracket or brace
characters. -/
def samplePara200 : String :=
  "We appreciate your enquiry about our industrial pump range. Our sales team has reviewed your requirements and will send a detailed quotation shortly. Please feel free to contact us with any questions."

/-!
## Library-style lemmas about the embedded operations
-/

theorem jsToLower_eq_empty_iff (s : String) : jsToLower s = "" ↔ s = "" := by
  constructor
  · intro h
    have hd : s.data.map Char.toLower = ([] : List Char) :=
      congrArg String.data h
    have hnil : s.data = [] := List.map_eq_nil_iff.mp hd
    cases s with
    | mk d => cases hnil; rfl
  · intro h
    subst h
    rfl

theorem jsIncludes_empty_left (pat : String) (h : pat ≠ "") :
    jsIncludes "" pat = false := by
  unfold jsIncludes
  rw [decide_eq_false_iff_not]
  intro hinf
  have hnil : pat.data = [] := by simpa using hinf
  apply h
  cases pat with
  | mk d => cases hnil; rfl

theorem mapGet_mapSet_self (m : String → Option String) (k v : String) :
    mapGet (mapSet m k v) k = some v := by
  simp [mapGet, mapSet]

theorem mapGet_mapDelete_self (m : String → Option String) (k : String) :
    mapGet (mapDelete m k) k = none := by
  simp [mapGet, mapDelete]

/-!
## The claims
-/

/-- C2: for every database, filter set and search term, applying the
client-side search to the server-filtered records yields a subset of
the server-filtered records, and the empty search term returns the
server-filtered records unmodified. -/
theorem searchNarrowsServerFilteredSet (db : Database)
    (filters : Option EnquiryFilterOptions) (limit offset : Nat)
    (term : String) :
    applySearch (getEnquiries db filters limit offset) term ⊆
        getEnquiries db filters limit offset ∧
      applySearch (getEnquiries db filters limit offset) "" =
        getEnquiries db filters limit offset := by
  constructor
  · unfold applySearch
    split
    · exact fun x hx => hx
    · exact List.filter_subset' _
  · rfl

/-- C9: the client-side search is total on records with a missing
company or contact relation; the missing name is treated as the empty
string, which contains no non-empty term, so such a record matches
exactly when one of its remaining non-missing fields contains the
term. -/
theorem applySearchMissingRelationSafe (l : List EnquiryWithRelations)
    (term : String) (e : EnquiryWithRelations) (ht : term ≠ "") :
    (e.company = none →
      (e ∈ applySearch l term ↔
        e ∈ l ∧
          (jsIncludes ((e.contact.map fun c => jsToLower c.name).getD "")
              (jsToLower term) ||
            jsIncludes (jsToLower e.product_interest) (jsToLower term)) = true)) ∧
    (e.contact = none →
      (e ∈ applySearch l term ↔
        e ∈ l ∧
          (jsIncludes ((e.company.map fun c => jsToLower c.name).getD "")
              (jsToLower term) ||
            jsIncludes (jsToLower e.product_interest) (jsToLower term)) = true)) := by
  have hlow : jsToLower term ≠ "" := fun hh => ht ((jsToLower_eq_empty_iff term).mp hh)
  have hfalse : jsIncludes "" (jsToLower term) = false := jsIncludes_empty_left _ hlow
  constructor
  · intro hc
    rw [applySearch, if_neg ht, List.mem_filter]
    simp only [hc, Option.map_none', Option.getD_none, hfalse, Bool.false_or]
  · intro hc
    rw [applySearch, if_neg ht, List.mem_filter]
    simp only [hc, Option.map_none', Option.getD_none, hfalse, Bool.or_false,
      Bool.false_or]

/-- C9 witness: a concrete record with a null company relation is found
through its contact name. -/
theorem applySearchMissingRelationSafeWitness :
    "bob" ≠ "" ∧
      (orphanRecord.company = none →
        (orphanRecord ∈ applySearch [orphanRecord] "bob" ↔
          orphanRecord ∈ [orphanRecord] ∧
            (jsIncludes
                ((orphanRecord.contact.map fun c => jsToLower c.name).getD "")
                (jsToLower "bob") ||
              jsIncludes (jsToLower orphanRecord.product_interest)
                (jsToLower "bob")) = true)) ∧
      (orphanRecord.contact = none →
        (orphanRecord ∈ applySearch [orphanRecord] "bob" ↔
          orphanRecord ∈ [orphanRecord] ∧
            (jsIncludes
                ((orphanRecord.company.map fun c => jsToLower c.name).getD "")
                (jsToLower "bob") ||
              jsIncludes (jsToLower orphanRecord.product_interest)
                (jsToLower "bob")) = true)) :=
  ⟨by decide,
    (applySearchMissingRelationSafe [orphanRecord] "bob" orphanRecord (by decide)).1,
    (applySearchMissingRelationSafe [orphanRecord] "bob" orphanRecord (by decide)).2⟩

/-- C10: the export-row projection fetches through
`getEnquiries(filters, 1000, 0)`, so the number of export rows is the
number of matching enquiries capped at 1000 — any further matching
enquiries are omitted. -/
theorem exportFetchCappedAtThousand (db : Database)
    (filters : Option EnquiryFilterOptions) :
    (getEnquiriesForExport db filters).length =
      min 1000 (db.enquiries.filter (matchesFilters filters)).length := by
  unfold getEnquiriesForExport getEnquiries
  simp [List.length_take, List.length_mergeSort]

/-- C1 (divergence witness): exporting a concrete enquiry whose
optional fields are all missing produces a CSV artifact whose rows do
have exactly 11 cells, but whose missing optional fields are rendered
as the empty string, not the dash; the unused `formatForExport` helper
would have rendered the dashes. -/
theorem exportArtifactRendersEmptyNotDash :
    exportEnquiriesCSV (getEnquiriesForExport exportSampleDb none) =
        [["company_name", "contact_name", "contact_email", "contact_phone",
          "status", "product_interest", "estimated_value", "enquiry_date",
          "next_follow_up", "notes", "owner"],
         ["Acme Industries", "", "", "", "new", "Pumps", "", "2024-01-15",
          "", "", "sam"]] ∧
      (∀ row ∈ exportEnquiriesCSV (getEnquiriesForExport exportSampleDb none),
        row.length = 11) ∧
      formatForExport (getEnquiriesForExport exportSampleDb none) =
        [["Acme Industries", "-", "-", "-", "new", "Pumps", "-", "2024-01-15",
          "-", "-", "sam"]] := by
  have hfetch : getEnquiriesForExport exportSampleDb none =
      [toExportRow exportSampleDb bareEnquiry] := by
    unfold getEnquiriesForExport getEnquiries
    have hfilter : exportSampleDb.enquiries.filter (matchesFilters none) =
        [bareEnquiry] := rfl
    rw [hfilter, List.mergeSort_singleton]
    rfl
  rw [hfetch]
  refine ⟨by decide, ?_, by decide⟩
  intro row hrow
  fin_cases hrow <;> decide

set_option maxRecDepth 100000 in
/-- C3: AI content validation passes exactly the contents whose trimmed
length is at least 50, whose length is at most 5000 and which contain
no bracket or brace placeholder syntax (an empty content has trimmed
length 0 and is rejected); in particular, a 10-character string is
rejected as too short, a long enough string containing
`\x7bcustomer_name\x7d` is rejected for unresolved placeholders, and a
well-formed 200-character paragraph with no brackets passes. -/
theorem validateResponseSpec :
    (∀ content : String,
      (validateResponse content).isValid = true ↔
        (50 ≤ (jsTrim content).length ∧ content.length ≤ 5000 ∧
          containsUnresolvedPlaceholder content = false)) ∧
      ("Thank you!".length = 10 ∧
        validateResponse "Thank you!" =
          ⟨false, "Generated content is too short"⟩) ∧
      validateResponse
          "Dear {customer_name}, thank you for your enquiry about our products; our sales team will reply shortly." =
        ⟨false, "Generated content contains unresolved placeholders"⟩ ∧
      (samplePara200.length = 200 ∧
        validateResponse samplePara200 =
          ⟨true, "Content validation passed"⟩) := by
  refine ⟨?_, by decide, by decide, by decide⟩
  intro content
  unfold validateResponse
  by_cases h0 : (content == "" || (jsTrim content).length == 0) = true
  · rw [if_pos h0]
    simp only [Bool.or_eq_true, beq_iff_eq] at h0
    have hz : (jsTrim content).length = 0 := by
      rcases h0 with h0 | h0
      · subst h0; rfl
      · exact h0
    simp [hz]
  · rw [if_neg h0]
    by_cases h1 : ((jsTrim content).length < 50 : Prop)
    · rw [if_pos (by simpa using h1)]
      simp
      omega
    · rw [if_neg (by simpa using h1)]
      by_cases h2 : (content.length > 5000 : Prop)
      · rw [if_pos (by simpa using h2)]
        simp
        omega
      · rw [if_neg (by simpa using h2)]
        by_cases h3 : containsUnresolvedPlaceholder content = true
        · rw [if_pos h3]
          simp [h3]
        · rw [if_neg h3]
          simp only [Bool.not_eq_true] at h3
          simp [h3]
          omega

/-- C7: for the single-record lookups, a backend error with code
`PGRST116` ("row not found") yields the normal null/empty result, while
any other backend error is re-thrown to the caller. -/
theorem rowNotFoundTreatedAsEmptyResult (e : PostgrestError)
    (dc : Option Company) (dq : Option EnquiryWithRelations)
    (dt : Option Contact) :
    (getCompanyById ⟨dc, some e⟩ =
        if e.code = "PGRST116" then Except.ok dc else Except.error e) ∧
      (getEnquiryById ⟨dq, some e⟩ =
        if e.code = "PGRST116" then Except.ok dq else Except.error e) ∧
      (getContactById ⟨dt, some e⟩ =
        if e.code = "PGRST116" then Except.ok dt else Except.error e) := by
  refine ⟨?_, ?_, ?_⟩ <;>
    · by_cases h : e.code = "PGRST116" <;>
        simp [getCompanyById, getEnquiryById, getContactById, h]

/-- C8: the status-change operation sends the payload
`\x7b status: newStatus \x7d`, so the matched enquiry row gets exactly
its status replaced and every other field (and every other row) is left
unchanged. -/
theorem statusChangePersistsExactlyStatus (rows : List Enquiry)
    (enquiryId : String) (newStatus : EnquiryStatus) :
    handleStatusChange rows enquiryId newStatus =
      rows.map fun r =>
        if r.id = enquiryId then
          { r with status := newStatus }
        else r := rfl

/-- C4: `syncReminders` with an empty fetched set of upcoming
reminders still issues the platform cancel-all call and leaves the
reminder-to-notification mapping empty, for every starting state: the
cancel-and-rebuild is unconditional. -/
theorem syncRemindersEmptySetStillCancelsAll (now : Nat)
    (results : List (Option String)) (s : NotificationState) :
    syncReminders now [] results true s =
      (⟨emptyMap⟩, [PlatformCall.cancelAllCall]) := rfl

/-- C5: scheduling a future-due reminder whose platform scheduling
succeeds and then cancelling the same reminder id leaves the mapping
without an entry for that id, and the combined trace holds exactly one
platform cancel call. -/
theorem scheduleThenCancelRemovesEntry (now : Nat) (r : Reminder)
    (nid : String) (s : NotificationState)
    (hfuture : now < r.reminder_date) :
    mapGet (cancelReminderNotification r.id
        (scheduleReminderNotification now r (some nid) s).1).1.scheduledNotifications
        r.id = none ∧
      countCancelCalls ((scheduleReminderNotification now r (some nid) s).2 ++
        (cancelReminderNotification r.id
          (scheduleReminderNotification now r (some nid) s).1).2) = 1 := by
  have hsched : scheduleReminderNotification now r (some nid) s =
      (⟨mapSet s.scheduledNotifications r.id nid⟩,
        [PlatformCall.scheduleCall
          ⟨"Follow-up Reminder", r.title, some r.id, some r.enquiry_id,
            some "EnquiryDetail"⟩ r.reminder_date]) := by
    unfold scheduleReminderNotification
    rw [if_neg (by omega)]
    rfl
  have hget : mapGet (mapSet s.scheduledNotifications r.id nid) r.id =
      some nid := mapGet_mapSet_self _ _ _
  have hcancel :
      cancelReminderNotification r.id
          (⟨mapSet s.scheduledNotifications r.id nid⟩ : NotificationState) =
        (⟨mapDelete (mapSet s.scheduledNotifications r.id nid) r.id⟩,
          [PlatformCall.cancelCall nid]) := by
    unfold cancelReminderNotification
    rw [hget]
    rfl
  rw [hsched, hcancel]
  exact ⟨mapGet_mapDelete_self _ _, rfl⟩

/-- C5 witness: a concrete future reminder scheduled (platform returns
notification id `n1`) and then cancelled. -/
theorem scheduleThenCancelRemovesEntryWitness :
    0 < 100 ∧
      (mapGet (cancelReminderNotification "r1"
          (scheduleReminderNotification 0
            ⟨"r1", "e1", 100, "Call Acme", none, false⟩ (some "n1")
            ⟨emptyMap⟩).1).1.scheduledNotifications "r1" = none ∧
        countCancelCalls
          ((scheduleReminderNotification 0
              ⟨"r1", "e1", 100, "Call Acme", none, false⟩ (some "n1")
              ⟨emptyMap⟩).2 ++
            (cancelReminderNotification "r1"
              (scheduleReminderNotification 0
                ⟨"r1", "e1", 100, "Call Acme", none, false⟩ (some "n1")
                ⟨emptyMap⟩).1).2) = 1) :=
  ⟨by decide,
    scheduleThenCancelRemovesEntry 0
      ⟨"r1", "e1", 100, "Call Acme", none, false⟩ "n1" ⟨emptyMap⟩ (by decide)⟩

/-- C6: scheduling a reminder whose due time is at or before the
current time skips silently: no platform call is made, no error is
raised (the operation returns normally) and the mapping is left
unchanged. -/
theorem pastDueReminderSkippedSilently (now : Nat) (r : Reminder)
    (platformResult : Option String) (s : NotificationState)
    (hpast : r.reminder_date ≤ now) :
    scheduleReminderNotification now r platformResult s = (s, []) := by
  unfold scheduleReminderNotification
  rw [if_pos hpast]

/-- C6 witness: a concrete past-due reminder is skipped over a
non-empty mapping. -/
theorem pastDueReminderSkippedSilentlyWitness :
    (⟨"r1", "e1", 5, "Call Acme", none, false⟩ : Reminder).reminder_date ≤ 10 ∧
      scheduleReminderNotification 10
          ⟨"r1", "e1", 5, "Call Acme", none, false⟩ (some "n1")
          ⟨mapSet emptyMap "r0" "n0"⟩ =
        (⟨mapSet emptyMap "r0" "n0"⟩, []) :=
  ⟨by decide,
    pastDueReminderSkippedSilently 10
      ⟨"r1", "e1", 5, "Call Acme", none, false⟩ (some "n1")
      ⟨mapSet emptyMap "r0" "n0"⟩ (by decide)⟩

end Winfraa
